import Mathlib

set_option maxRecDepth 40000

/-!
Verification model of the satellite classification application.

The JavaScript sources are embedded shallowly:
- JavaScript numbers are idealised as exact rationals.  Float rounding,
  overflow and the Infinity/NaN arithmetic values are outside the
  idealisation; the few places where the code can meet a non-finite value
  (orbital velocity at radial distance 0, scaler lookups past the end of
  the mean/std arrays) are modelled explicitly with Option, where none
  stands for the non-finite JavaScript value.
- Math.sqrt has no exact rational counterpart, so derived features
  (total velocity, radial distance) are passed explicitly and tied to a
  sample by the relation CalculatesDerived, which characterises the exact
  square roots.  Comparisons the source makes on square roots are
  rewritten equivalently over squares (sqrt is monotone on nonnegatives);
  a bridging lemma proves the rewritten decision equal to the literal one.
- Thrown exceptions become Except, and the error strings of the source
  become structured error values (one constructor per source message).
-/

namespace SatML

/-- A JavaScript value as it can reach the validators of this app:
absent (undefined or null), the NaN a failed parseFloat produces, or a
finite number (idealised as a rational).  The callers in the app only
ever supply these three shapes. -/
inductive JVal where
  | missing
  | nan
  | num (q : ℚ)
deriving DecidableEq

/-- The eight required input fields.  prediction_engine.js names the last
six x_eci_km .. velocity_z, app.js names them x_eci .. vel_z; they are the
same positions of the same record. -/
inductive InputField where
  | latitude
  | longitude
  | x_eci
  | y_eci
  | z_eci
  | vel_x
  | vel_y
  | vel_z
deriving DecidableEq

/-- The required-field list, in the order both validators iterate it. -/
def requiredFields : List InputField :=
  [.latitude, .longitude, .x_eci, .y_eci, .z_eci, .vel_x, .vel_y, .vel_z]

/-- A raw input object: a field-indexed record of JavaScript values. -/
def OrbitalInput : Type := InputField → JVal

/-- The value of a field once it is known to be a number; 0 is a default
that is only reachable behind a validation that has excluded it. -/
def JVal.numOr0 : JVal → ℚ
  | .num q => q
  | _ => 0

/-- An all-numeric sample, the shape of the data after validation. -/
structure OrbitalSample where
  latitude : ℚ
  longitude : ℚ
  x_eci : ℚ
  y_eci : ℚ
  z_eci : ℚ
  vel_x : ℚ
  vel_y : ℚ
  vel_z : ℚ
deriving DecidableEq

/-- Read the numeric fields out of a raw input. -/
def extractSample (d : OrbitalInput) : OrbitalSample :=
  ⟨(d InputField.latitude).numOr0, (d InputField.longitude).numOr0,
   (d InputField.x_eci).numOr0, (d InputField.y_eci).numOr0,
   (d InputField.z_eci).numOr0, (d InputField.vel_x).numOr0,
   (d InputField.vel_y).numOr0, (d InputField.vel_z).numOr0⟩

/-- CONSTANTS.EARTH_RADIUS_KM from model_config.js. -/
def EARTH_RADIUS_KM : ℚ := 6371.0

/-- CONSTANTS.GRAVITATIONAL_CONSTANT from model_config.js. -/
def GRAVITATIONAL_CONSTANT : ℚ := 398600.4418

/-- The configured class labels (MODEL_CONFIG.classes). -/
inductive ClassName where
  | ISS
  | Sentinel1A
deriving DecidableEq

/-- MODEL_CONFIG.classes = ['ISS', 'Sentinel1A']. -/
def classes : List ClassName := [.ISS, .Sentinel1A]

/-- One class's rule table from MODEL_CONFIG.classificationRules
(model_config.js); each range is an ordered pair (low, high). -/
structure ClassRules where
  altitude_range : ℚ × ℚ
  velocity_range : ℚ × ℚ
  inclination_range : ℚ × ℚ
  radial_distance : ℚ × ℚ
  orbital_period : ℚ × ℚ
deriving DecidableEq

/-- MODEL_CONFIG.classificationRules from model_config.js (the app.js
copy carries the same altitude/velocity/radial values). -/
def classificationRules : ClassName → ClassRules
  | .ISS => ⟨(400, 410), (7.60, 7.70), (51.5, 51.7), (6771, 6781), (92, 93)⟩
  | .Sentinel1A => ⟨(690, 710), (7.40, 7.50), (98.0, 98.5), (7061, 7081), (98, 99)⟩

/-- SCALER_PARAMS.mean from model_config.js. -/
def SCALER_MEAN : List ℚ := [0.0, 0.0, 0.0, 0.0, 0.0, 0.0, 0.0, 0.0, 7.5, 6900.0]

/-- SCALER_PARAMS.std from model_config.js. -/
def SCALER_STD : List ℚ := [90.0, 180.0, 1000.0, 1000.0, 1000.0, 1.5, 1.5, 1.5, 0.15, 200.0]

/-- The square-root-valued derived features of calculateDerivedFeatures:
totalVelocity = sqrt(vx^2+vy^2+vz^2), radialDistance = sqrt(x^2+y^2+z^2).
They are irrational in general, so they are carried as data and tied to a
sample by CalculatesDerived below; the remaining two derived values
(altitude, orbitalVelocity) are rational functions of these and are
defined below. -/
structure DerivedFeatures where
  totalVelocity : ℚ
  radialDistance : ℚ
deriving DecidableEq

/-- altitude = radialDistance - EARTH_RADIUS_KM (calculateDerivedFeatures). -/
def DerivedFeatures.altitude (dv : DerivedFeatures) : ℚ :=
  dv.radialDistance - EARTH_RADIUS_KM

/-- The square of orbitalVelocity = sqrt(GM / radialDistance).  When
radialDistance = 0 the JavaScript division yields Infinity and the
feature is non-finite: modelled as none. -/
def DerivedFeatures.orbitalVelocitySq (dv : DerivedFeatures) : Option ℚ :=
  if dv.radialDistance = 0 then none
  else some (GRAVITATIONAL_CONSTANT / dv.radialDistance)

/-- dv holds exactly the square roots calculateDerivedFeatures computes
for s: it is the unique nonnegative solution of the squared equations. -/
def CalculatesDerived (s : OrbitalSample) (dv : DerivedFeatures) : Prop :=
  0 ≤ dv.totalVelocity ∧
  dv.totalVelocity ^ 2 = s.vel_x ^ 2 + s.vel_y ^ 2 + s.vel_z ^ 2 ∧
  0 ≤ dv.radialDistance ∧
  dv.radialDistance ^ 2 = s.x_eci ^ 2 + s.y_eci ^ 2 + s.z_eci ^ 2

instance (s : OrbitalSample) (dv : DerivedFeatures) : Decidable (CalculatesDerived s dv) := by
  unfold CalculatesDerived
  infer_instance

namespace Engine

/-- SatelliteClassifier.matchesRules (prediction_engine.js lines 67-89).
The source also receives the raw data object but never reads it. -/
def matchesRules (dv : DerivedFeatures) (name : ClassName) : Bool :=
  let rules := classificationRules name
  let altitudeMatch :=
    decide (rules.altitude_range.1 ≤ dv.altitude ∧ dv.altitude ≤ rules.altitude_range.2)
  let velocityMatch :=
    decide (rules.velocity_range.1 ≤ dv.totalVelocity ∧ dv.totalVelocity ≤ rules.velocity_range.2)
  let radialMatch :=
    decide (rules.radial_distance.1 ≤ dv.radialDistance ∧ dv.radialDistance ≤ rules.radial_distance.2)
  altitudeMatch && velocityMatch && radialMatch

/-- altitudeScore of calculateConfidence (prediction_engine.js lines 102-107). -/
def altitudeScore (dv : DerivedFeatures) (name : ClassName) : ℚ :=
  let rules := classificationRules name
  let altitudeCenter := (rules.altitude_range.1 + rules.altitude_range.2) / 2
  let altitudeRange := rules.altitude_range.2 - rules.altitude_range.1
  1 - min (|dv.altitude - altitudeCenter| / altitudeRange) 1

/-- velocityScore of calculateConfidence (prediction_engine.js lines 109-114). -/
def velocityScore (dv : DerivedFeatures) (name : ClassName) : ℚ :=
  let rules := classificationRules name
  let velocityCenter := (rules.velocity_range.1 + rules.velocity_range.2) / 2
  let velocityRange := rules.velocity_range.2 - rules.velocity_range.1
  1 - min (|dv.totalVelocity - velocityCenter| / velocityRange) 1

/-- SatelliteClassifier.calculateConfidence (prediction_engine.js lines 98-125). -/
def calculateConfidence (dv : DerivedFeatures) (name : ClassName) : ℚ :=
  let confidence := altitudeScore dv name * 0.6 + velocityScore dv name * 0.4
  if matchesRules dv name then max confidence 0.90 else max confidence 0.50

/-- The prediction chosen by the if/else chain of predict
(prediction_engine.js lines 156-179).  The source sets prediction and
confidence in one chain; here the same chain is written once for each of
the two variables it assigns. -/
def predictionOf (dv : DerivedFeatures) : ClassName :=
  if matchesRules dv .ISS then .ISS
  else if matchesRules dv .Sentinel1A then .Sentinel1A
  else if dv.altitude < 500 then .ISS
  else .Sentinel1A

/-- The confidence set by the same if/else chain of predict. -/
def confidenceOf (dv : DerivedFeatures) : ℚ :=
  if matchesRules dv .ISS then calculateConfidence dv .ISS
  else if matchesRules dv .Sentinel1A then calculateConfidence dv .Sentinel1A
  else 0.70

/-- The record predict returns: prediction, confidence, the two class
probabilities, and the raw and derived features.  The formatted
(toFixed) string copies of the features are display-only and omitted.
The source also computes normalizeFeatures on the 10-feature vector at
this point; the normalized vector is dead in the decision and is
modelled by the standalone normalizeFeatures below. -/
structure EngResult where
  prediction : ClassName
  confidence : ℚ
  probISS : ℚ
  probSentinel1A : ℚ
  raw : OrbitalSample
  derived : DerivedFeatures
deriving DecidableEq

/-- The body of SatelliteClassifier.predict after validation
(prediction_engine.js lines 136-203). -/
def predictCore (s : OrbitalSample) (dv : DerivedFeatures) : EngResult :=
  ⟨predictionOf dv, confidenceOf dv,
   (if predictionOf dv = .ISS then confidenceOf dv else 1 - confidenceOf dv),
   (if predictionOf dv = .Sentinel1A then confidenceOf dv else 1 - confidenceOf dv),
   s, dv⟩

/-- The errors SatelliteClassifier.validateInput can throw, one
constructor per source message (prediction_engine.js lines 211-231). -/
inductive EngError where
  | missingField (f : InputField)
  | invalidValue (f : InputField)
  | latitudeRange
  | longitudeRange
deriving DecidableEq

/-- The per-field check of the validateInput loop: undefined/null throws
the missing-field error, a non-number or NaN throws the invalid-value
error. -/
def fieldError (v : JVal) (f : InputField) : Option EngError :=
  match v with
  | .missing => some (.missingField f)
  | .nan => some (.invalidValue f)
  | .num _ => none

/-- SatelliteClassifier.validateInput (prediction_engine.js lines
211-231): throws at the FIRST violation, scanning the required fields in
order and then the latitude and longitude ranges. -/
def validateInput (d : OrbitalInput) : Except EngError Unit :=
  match requiredFields.findSome? (fun f => fieldError (d f) f) with
  | some e => .error e
  | none =>
    if (d InputField.latitude).numOr0 < -90 ∨ 90 < (d InputField.latitude).numOr0 then
      .error .latitudeRange
    else if (d InputField.longitude).numOr0 < -180 ∨ 180 < (d InputField.longitude).numOr0 then
      .error .longitudeRange
    else .ok ()

/-- Modelled from the spec: "a structured validation error listing every
violated field, not just the first" - the full list of violations of
validateInput's checks, in check order, for comparison with what
validateInput actually surfaces. -/
def validateInputSpec (d : OrbitalInput) : List EngError :=
  (requiredFields.filterMap (fun f => fieldError (d f) f)) ++
  (if (d InputField.latitude).numOr0 < -90 ∨ 90 < (d InputField.latitude).numOr0 then
    [.latitudeRange] else []) ++
  (if (d InputField.longitude).numOr0 < -180 ∨ 180 < (d InputField.longitude).numOr0 then
    [.longitudeRange] else [])

/-- SatelliteClassifier.predict (prediction_engine.js lines 132-204):
validate, then classify; the derived features are passed explicitly. -/
def predict (d : OrbitalInput) (dv : DerivedFeatures) : Except EngError EngResult :=
  match validateInput d with
  | .error e => .error e
  | .ok _ => .ok (predictCore (extractSample d) dv)

/-- The worker of normalizeFeatures: features.map((val, idx) =>
(val - mean[idx]) / std[idx]).  An index past the end of mean/std reads
undefined and the arithmetic yields NaN, modelled as none. -/
def normalizeFrom : Nat → List ℚ → List (Option ℚ)
  | _, [] => []
  | idx, v :: rest =>
    (match SCALER_MEAN[idx]?, SCALER_STD[idx]? with
     | some m, some s => some ((v - m) / s)
     | _, _ => none) :: normalizeFrom (idx + 1) rest

/-- SatelliteClassifier.normalizeFeatures (prediction_engine.js lines
54-58); app.js lines 170-174 are the identical function over the same
scaler parameters. -/
def normalizeFeatures (features : List ℚ) : List (Option ℚ) :=
  normalizeFrom 0 features

/-- The dimension-mismatch failure the spec prescribes for the normalizer. -/
inductive DimError where
  | mismatch
deriving DecidableEq

/-- Modelled from the spec: the normalizer contract of spec section 4.2,
failing with a dimension-mismatch error when the vector lengths differ
and otherwise producing the elementwise z-score vector. -/
def normalizeFeaturesSpec (features : List ℚ) : Except DimError (List ℚ) :=
  if features.length = SCALER_MEAN.length ∧ features.length = SCALER_STD.length then
    .ok (List.zipWith (fun v ms => (v - ms.1) / ms.2) features (SCALER_MEAN.zip SCALER_STD))
  else .error .mismatch

end Engine

namespace App

/-- The validation errors of app.js validateInput (lines 109-154), one
constructor per pushed message. -/
inductive AppError where
  | missingField (f : InputField)
  | invalidValue (f : InputField)
  | latitudeOutOfRange
  | longitudeOutOfRange
  | velocityXUnrealistic
  | velocityYUnrealistic
  | velocityZUnrealistic
  | eciInsideEarth
  | eciTooFar
deriving DecidableEq

/-- The two per-field pushes of the required-field loop (app.js lines
114-121): an undefined/null field pushes the missing-field error AND
falls through to the typeof check, which pushes the invalid-value error
as well; a NaN field pushes only the invalid-value error. -/
def fieldErrors (v : JVal) (f : InputField) : List AppError :=
  (if v = .missing then [.missingField f] else []) ++
  (if v = .missing ∨ v = .nan then [.invalidValue f] else [])

/-- The latitude/longitude range pushes (app.js lines 124-131): guarded
by !== undefined; comparisons against NaN (and against null, which
coerces to 0) push nothing. -/
def rangeError (v : JVal) (lo hi : ℚ) (e : AppError) : List AppError :=
  match v with
  | .num q => if q < lo ∨ hi < q then [e] else []
  | _ => []

/-- The per-axis velocity sanity pushes (app.js lines 134-142). -/
def velError (v : JVal) (e : AppError) : List AppError :=
  match v with
  | .num q => if 20 < |q| then [e] else []
  | _ => []

/-- The ECI magnitude pushes (app.js lines 144-151).  The source
computes sqrt((x||0)^2+(y||0)^2+(z||0)^2) and compares with 6371 and
100000; the comparisons are taken equivalently on the squares.  A NaN
coordinate is truthy-propagated by (x||0) only when it is the falsy NaN
itself: NaN||0 is 0 in JavaScript only for NaN, but NaN**2 is NaN, so a
NaN coordinate makes the magnitude NaN and both comparisons false -
hence the leading guard. -/
def eciErrors (x y z : JVal) : List AppError :=
  if x = .nan ∨ y = .nan ∨ z = .nan then []
  else
    (if x.numOr0 ^ 2 + y.numOr0 ^ 2 + z.numOr0 ^ 2 < 6371 ^ 2 then [.eciInsideEarth] else []) ++
    (if 100000 ^ 2 < x.numOr0 ^ 2 + y.numOr0 ^ 2 + z.numOr0 ^ 2 then [.eciTooFar] else [])

/-- app.js validateInput (lines 109-154): collects EVERY violation into
one ordered list and returns it. -/
def validateInput (d : OrbitalInput) : List AppError :=
  (requiredFields.foldr (fun f acc => fieldErrors (d f) f ++ acc) []) ++
  rangeError (d InputField.latitude) (-90) 90 .latitudeOutOfRange ++
  rangeError (d InputField.longitude) (-180) 180 .longitudeOutOfRange ++
  velError (d InputField.vel_x) .velocityXUnrealistic ++
  velError (d InputField.vel_y) .velocityYUnrealistic ++
  velError (d InputField.vel_z) .velocityZUnrealistic ++
  eciErrors (d InputField.x_eci) (d InputField.y_eci) (d InputField.z_eci)

/-- The record predictSatellite returns; the formatted (toFixed) feature
strings are display-only and omitted. -/
structure AppResult where
  prediction : ClassName
  confidence : ℚ
  raw : OrbitalSample
deriving DecidableEq

/-- The decision of predictSatellite (app.js lines 200-218), with the
comparisons on altitude = sqrt(x^2+y^2+z^2) - 6371 and totalVelocity =
sqrt(vx^2+vy^2+vz^2) rewritten equivalently over the squares:
altitude < 450 iff radial distance < 6821 iff its square < 6821^2, and
likewise for the other thresholds (sqrt is monotone on nonnegatives; the
lemma predictCore_eq_predictSpec below proves the two forms equal). -/
def predictCore (s : OrbitalSample) : AppResult :=
  if s.x_eci ^ 2 + s.y_eci ^ 2 + s.z_eci ^ 2 < 6821 ^ 2 ∧
      (7.6 : ℚ) ^ 2 < s.vel_x ^ 2 + s.vel_y ^ 2 + s.vel_z ^ 2 then
    ⟨.ISS, 0.95, s⟩
  else if (7021 : ℚ) ^ 2 < s.x_eci ^ 2 + s.y_eci ^ 2 + s.z_eci ^ 2 ∧
      s.vel_x ^ 2 + s.vel_y ^ 2 + s.vel_z ^ 2 < (7.6 : ℚ) ^ 2 then
    ⟨.Sentinel1A, 0.92, s⟩
  else if |s.latitude| < 52 ∧ s.x_eci ^ 2 + s.y_eci ^ 2 + s.z_eci ^ 2 < 6821 ^ 2 then
    ⟨.ISS, 0.88, s⟩
  else ⟨.Sentinel1A, 0.75, s⟩

/-- The same decision as literally written in the source, over the
derived square-root features. -/
def predictSpec (s : OrbitalSample) (dv : DerivedFeatures) : AppResult :=
  if dv.altitude < 450 ∧ 7.6 < dv.totalVelocity then ⟨.ISS, 0.95, s⟩
  else if 650 < dv.altitude ∧ dv.totalVelocity < 7.6 then ⟨.Sentinel1A, 0.92, s⟩
  else if |s.latitude| < 52 ∧ dv.altitude < 450 then ⟨.ISS, 0.88, s⟩
  else ⟨.Sentinel1A, 0.75, s⟩

/-- app.js predictSatellite (lines 176-236): validate — throwing the
full violation list when it is nonempty — then decide. -/
def predictSatellite (d : OrbitalInput) : Except (List AppError) AppResult :=
  match validateInput d with
  | [] => .ok (predictCore (extractSample d))
  | e :: es => .error (e :: es)

end App

namespace Batch

/-- ASCII whitespace for trim; the app only meets spaces, tabs and line
ends here. -/
def isWS (c : Char) : Bool :=
  c = ' ' ∨ c = '\t' ∨ c = '\n' ∨ c = '\r'

/-- String.prototype.trim on a character list. -/
def trimChars (l : List Char) : List Char :=
  ((l.dropWhile isWS).reverse.dropWhile isWS).reverse

/-- The csv.replace(CRLF, LF).replace(CR, LF) normalisation of the
onload handler (app.js line 473), fused into one pass: every CRLF and
every lone CR becomes LF. -/
def normalizeNewlines : List Char → List Char
  | [] => []
  | '\r' :: '\n' :: rest => '\n' :: normalizeNewlines rest
  | '\r' :: rest => '\n' :: normalizeNewlines rest
  | c :: rest => c :: normalizeNewlines rest

/-- String.prototype.split on a single separator character. -/
def splitOnChar (sep : Char) : List Char → List (List Char)
  | [] => [[]]
  | c :: rest =>
    let r := splitOnChar sep rest
    if c = sep then [] :: r
    else
      match r with
      | [] => [[c]]
      | w :: ws => (c :: w) :: ws

def startsWithSeq : List Char → List Char → Bool
  | [], _ => true
  | _ :: _, [] => false
  | p :: ps, c :: cs => p = c && startsWithSeq ps cs

/-- String.prototype.includes on character lists. -/
def containsSeq (pat : List Char) : List Char → Bool
  | [] => startsWithSeq pat []
  | c :: cs => startsWithSeq pat (c :: cs) || containsSeq pat cs

def toLowerChars (l : List Char) : List Char := l.map Char.toLower

def newlineChar : Char := '\n'

def commaChar : Char := ','

def latPat : List Char := ['l', 'a', 't']

def lonPat : List Char := ['l', 'o', 'n']

/-- The line list of the onload handler (app.js lines 473-477): split on
newline (after normalisation), trim, drop blank lines. -/
def cleanLines (csv : String) : List (List Char) :=
  ((splitOnChar newlineChar (normalizeNewlines csv.toList)).map trimChars).filter
    (fun l => decide (l ≠ []))

/-- The raw source lines of the file, before trimming and blank-line
filtering: what "source line number" means for the uploaded text. -/
def sourceLines (csv : String) : List (List Char) :=
  splitOnChar newlineChar (normalizeNewlines csv.toList)

/-- The header detection (app.js lines 485-486): the first line,
lowercased, contains "lat" or "lon". -/
def hasHeader (lines : List (List Char)) : Bool :=
  match lines with
  | [] => false
  | first :: _ =>
    containsSeq latPat (toLowerChars first) || containsSeq lonPat (toLowerChars first)

def digitVal (c : Char) : Nat := c.toNat - 48

def natOfDigits (ds : List Char) : Nat :=
  ds.foldl (fun n c => 10 * n + digitVal c) 0

/-- Idealised JavaScript parseFloat: longest numeric-literal prefix of
the (already trimmed) cell — optional sign, integer digits, optional
fraction, optional e/E exponent (a malformed exponent suffix is ignored,
as in JS where parseFloat of "1e" is 1); none models the NaN result when
no numeric prefix exists.  The Infinity literal and float
rounding/overflow have no rational counterpart and are not modelled; in
this app an infinite field value would in any case fail the validation
range checks, landing the row in the same failure bucket. -/
def jsParseFloat (cs : List Char) : Option ℚ :=
  let sign : ℚ := match cs with
    | '-' :: _ => -1
    | _ => 1
  let cs1 : List Char := match cs with
    | '-' :: rest => rest
    | '+' :: rest => rest
    | _ => cs
  let ip := cs1.takeWhile Char.isDigit
  let cs2 := cs1.dropWhile Char.isDigit
  let fp : List Char := match cs2 with
    | '.' :: rest => rest.takeWhile Char.isDigit
    | _ => []
  let cs3 : List Char := match cs2 with
    | '.' :: rest => rest.dropWhile Char.isDigit
    | _ => cs2
  if ip = [] ∧ fp = [] then none
  else
    let mantissa : ℚ := (natOfDigits ip : ℚ) + (natOfDigits fp : ℚ) / (10 : ℚ) ^ fp.length
    let exp : ℤ := match cs3 with
      | c :: rest =>
        if c = 'e' ∨ c = 'E' then
          let esign : ℤ := match rest with
            | '-' :: _ => -1
            | _ => 1
          let rest2 : List Char := match rest with
            | '-' :: rr => rr
            | '+' :: rr => rr
            | _ => rest
          let ed := rest2.takeWhile Char.isDigit
          if ed = [] then 0 else esign * (natOfDigits ed : ℤ)
        else 0
      | [] => 0
    some (sign * mantissa * (10 : ℚ) ^ exp)

/-- The per-line failure reasons of the batch loop (app.js lines
497-531), one constructor per pushed message shape. -/
inductive FailReason where
  | notEnoughColumns (found : Nat)
  | invalidNumeric (positions : List Nat)
  | predictionFailed (errs : List App.AppError)
deriving DecidableEq

/-- One entry of the batch errors list: the reported 1-based line number
and the reason. -/
structure FailRow where
  lineNumber : Nat
  reason : FailReason
deriving DecidableEq

/-- One entry of the batch results list ({...data, ...result,
lineNumber} in the source). -/
structure SuccessRow where
  lineNumber : Nat
  data : OrbitalSample
  result : App.AppResult
deriving DecidableEq

/-- The data object built from the first 8 parsed numbers (app.js lines
510-519). -/
def mkData (ns : List ℚ) : OrbitalInput :=
  fun f =>
    match f with
    | .latitude => .num (ns.getD 0 0)
    | .longitude => .num (ns.getD 1 0)
    | .x_eci => .num (ns.getD 2 0)
    | .y_eci => .num (ns.getD 3 0)
    | .z_eci => .num (ns.getD 4 0)
    | .vel_x => .num (ns.getD 5 0)
    | .vel_y => .num (ns.getD 6 0)
    | .vel_z => .num (ns.getD 7 0)

/-- line.split(',').map(trim) (app.js line 495). -/
def lineValues (line : List Char) : List (List Char) :=
  (splitOnChar commaChar line).map trimChars

/-- values.slice(0, 8).map(parseFloat) (app.js line 502). -/
def lineNums (line : List Char) : List (Option ℚ) :=
  ((lineValues line).take 8).map jsParseFloat

/-- The positions of NaN parses among the first 8 fields (app.js line
503). -/
def invalidPositions (line : List Char) : List Nat :=
  (List.range (lineNums line).length).filterMap
    (fun i => if (lineNums line).getD i none = none then some i else none)

/-- The body of one iteration of the batch loop (app.js lines 493-532):
column-count check, numeric check, then predictSatellite under the
per-row try/catch; the reported line number is i + 1 for the line at
index i of the cleaned line list. -/
def processLine (i : Nat) (line : List Char) : Except FailRow SuccessRow :=
  if (lineValues line).length < 8 then
    .error ⟨i + 1, .notEnoughColumns (lineValues line).length⟩
  else if invalidPositions line ≠ [] then
    .error ⟨i + 1, .invalidNumeric (invalidPositions line)⟩
  else
    let d := mkData ((lineNums line).map (fun o => o.getD 0))
    match App.predictSatellite d with
    | .ok r => .ok ⟨i + 1, extractSample d, r⟩
    | .error es => .error ⟨i + 1, .predictionFailed es⟩

/-- The batch loop as a fold: each line lands in the results or the
errors list, in order, and processing always continues with the next
line. -/
def processLines : List (Nat × List Char) → List SuccessRow × List FailRow
  | [] => ([], [])
  | (i, line) :: rest =>
    let r := processLines rest
    match processLine i line with
    | .ok s => (s :: r.1, r.2)
    | .error f => (r.1, f :: r.2)

/-- The two fatal batch errors of the onload handler: "CSV file is
empty" (app.js line 482) and "No valid data rows found in CSV file"
(line 550). -/
inductive BatchError where
  | emptyFile
  | noValidRows
deriving DecidableEq

/-- The aggregate outcome shown by displayBatchResults: the ordered
successes and the ordered per-line failures. -/
structure BatchOutcome where
  successes : List SuccessRow
  failures : List FailRow
deriving DecidableEq

def enumFrom : Nat → List (List Char) → List (Nat × List Char)
  | _, [] => []
  | i, l :: ls => (i, l) :: enumFrom (i + 1) ls

/-- The indexed data lines the loop visits: indices startIdx..end of the
cleaned line list, where startIdx skips a detected header. -/
def dataLines (csv : String) : List (Nat × List Char) :=
  let lines := cleanLines csv
  let startIdx := if hasHeader lines then 1 else 0
  enumFrom startIdx (lines.drop startIdx)

/-- The whole onload handler (app.js lines 468-559) as a function of the
file text: empty file is fatal, a batch whose loop produced no success
is fatal, otherwise the successes and failures are displayed.  Alerts
and the prediction log are display-only and omitted. -/
def processBatch (csv : String) : Except BatchError BatchOutcome :=
  if cleanLines csv = [] then .error .emptyFile
  else
    let r := processLines (dataLines csv)
    if r.1 = [] then .error .noValidRows
    else .ok ⟨r.1, r.2⟩

end Batch

/-! Concrete inputs used by the witnesses and counterexamples. -/

/-- The documentation's ISS sample (loadSampleData in app.js). -/
def dEx : OrbitalInput := Batch.mkData [51.6, -122.0, 6771.5, 100.0, 200.0, 7.66, 0.5, 0.3]

/-- An arbitrary derived-feature pair for the unconditional engine bounds. -/
def dvEx : DerivedFeatures := ⟨7.682, 6775.0⟩

/-- Derived features inside every ISS rule range. -/
def dvISS : DerivedFeatures := ⟨7.65, 6776⟩

/-- Derived features matching neither class (altitude 629). -/
def dvFall : DerivedFeatures := ⟨7, 7000⟩

/-- Derived features exactly on the low ISS edges: altitude exactly 400,
radial distance exactly 6771. -/
def dvBoundary : DerivedFeatures := ⟨7.65, 6771⟩

/-- A valid input whose position and velocity have rational norms. -/
def dSq : OrbitalInput := Batch.mkData [51.6, -122.0, 7000, 0, 0, 7, 0, 0]

/-- The derived features of dSq. -/
def dvSq : DerivedFeatures := ⟨7, 7000⟩

/-- The degenerate zero-position input. -/
def dZero : OrbitalInput := Batch.mkData [51.6, -122.0, 0, 0, 0, 7, 0, 0]

/-- The derived features of dZero: radial distance 0. -/
def dvZero : DerivedFeatures := ⟨7, 0⟩

/-- An input violating both the latitude and the longitude range. -/
def dBoth : OrbitalInput := Batch.mkData [100, 200, 7000, 0, 0, 7, 0, 0]

/-- A CSV row that parses and passes validation (the ISS sample). -/
def goodRow : String := "51.6,-122.0,6771.5,100.0,200.0,7.66,0.5,0.3"

/-- A CSV row whose eight cells all fail to parse. -/
def badRow : String := "x,x,x,x,x,x,x,x"

/-- Three data rows, the middle one with a non-numeric fourth cell. -/
def csvC6 : String := "51.6,-122.0,6771.5,100.0,200.0,7.66,0.5,0.3\n51.6,-122.0,6771.5,abc,200.0,7.66,0.5,0.3\n51.6,-122.0,6771.5,100.0,200.0,7.66,0.5,0.3"

/-- A good row, then a blank source line, then a malformed row: the
malformed row sits on source line 3 but is reported as line 2. -/
def csvBlank : String := "51.6,-122.0,6771.5,100.0,200.0,7.66,0.5,0.3\n\nx,x,x,x,x,x,x,x"

/-- One row whose sixth cell 12abc is not a number but has the numeric
prefix 12, which parseFloat accepts. -/
def csvPrefix : String := "51.6,-122.0,6771.5,100.0,200.0,12abc,0.5,0.3"

/-- Empty file content. -/
def emptyCsv : String := ""

/-- A file holding only a header line. -/
def headerOnlyCsv : String := "lat,lon"

/-! Helper lemmas shared by the claim theorems. -/

theorem one_sub_min_nonneg (x : ℚ) : 0 ≤ 1 - min x 1 := by
  have h := min_le_right x 1
  linarith

theorem one_sub_min_le_one (x : ℚ) (hx : 0 ≤ x) : 1 - min x 1 ≤ 1 := by
  have h : 0 ≤ min x 1 := le_min hx (by norm_num)
  linarith

theorem altitudeScore_bounds (dv : DerivedFeatures) (name : ClassName) :
    0 ≤ Engine.altitudeScore dv name ∧ Engine.altitudeScore dv name ≤ 1 := by
  cases name
  all_goals
    simp only [Engine.altitudeScore, classificationRules]
    exact ⟨one_sub_min_nonneg _, one_sub_min_le_one _ (div_nonneg (abs_nonneg _) (by norm_num))⟩

theorem velocityScore_bounds (dv : DerivedFeatures) (name : ClassName) :
    0 ≤ Engine.velocityScore dv name ∧ Engine.velocityScore dv name ≤ 1 := by
  cases name
  all_goals
    simp only [Engine.velocityScore, classificationRules]
    exact ⟨one_sub_min_nonneg _, one_sub_min_le_one _ (div_nonneg (abs_nonneg _) (by norm_num))⟩

theorem calculateConfidence_bounds (dv : DerivedFeatures) (name : ClassName) :
    0.50 ≤ Engine.calculateConfidence dv name ∧ Engine.calculateConfidence dv name ≤ 1 := by
  obtain ⟨ha0, ha1⟩ := altitudeScore_bounds dv name
  obtain ⟨hv0, hv1⟩ := velocityScore_bounds dv name
  have hblend1 : Engine.altitudeScore dv name * 0.6 + Engine.velocityScore dv name * 0.4 ≤ 1 := by
    nlinarith
  simp only [Engine.calculateConfidence]
  split
  · refine ⟨?_, max_le hblend1 (by norm_num)⟩
    have h := le_max_right
      (Engine.altitudeScore dv name * 0.6 + Engine.velocityScore dv name * 0.4) (0.90 : ℚ)
    linarith
  · refine ⟨?_, max_le hblend1 (by norm_num)⟩
    have h := le_max_right
      (Engine.altitudeScore dv name * 0.6 + Engine.velocityScore dv name * 0.4) (0.50 : ℚ)
    linarith

theorem confidenceOf_bounds (dv : DerivedFeatures) :
    0.50 ≤ Engine.confidenceOf dv ∧ Engine.confidenceOf dv ≤ 1 := by
  simp only [Engine.confidenceOf]
  split
  · exact calculateConfidence_bounds dv .ISS
  · split
    · exact calculateConfidence_bounds dv .Sentinel1A
    · exact ⟨by norm_num, by norm_num⟩

theorem matchesRules_spec (dv : DerivedFeatures) (name : ClassName) :
    Engine.matchesRules dv name = true ↔
      ((classificationRules name).altitude_range.1 ≤ dv.altitude ∧
       dv.altitude ≤ (classificationRules name).altitude_range.2 ∧
       (classificationRules name).velocity_range.1 ≤ dv.totalVelocity ∧
       dv.totalVelocity ≤ (classificationRules name).velocity_range.2 ∧
       (classificationRules name).radial_distance.1 ≤ dv.radialDistance ∧
       dv.radialDistance ≤ (classificationRules name).radial_distance.2) := by
  simp only [Engine.matchesRules, Bool.and_eq_true, decide_eq_true_eq, and_assoc]

theorem matchesRules_Sentinel_not_ISS (dv : DerivedFeatures)
    (h : Engine.matchesRules dv .Sentinel1A = true) :
    ¬ Engine.matchesRules dv .ISS = true := by
  intro hISS
  have hs := (matchesRules_spec dv .Sentinel1A).mp h
  have hi := (matchesRules_spec dv .ISS).mp hISS
  simp only [classificationRules] at hs hi
  obtain ⟨hs1, _⟩ := hs
  obtain ⟨_, hi2, _⟩ := hi
  linarith

/-! Claim theorems. -/

/-- C1: for every input sample that passes validation, the classifier
returns a result whose confidence lies in [0.50, 1.0] and whose
predicted class is one of the configured class labels; this holds for
the prediction-engine classifier and for the app.js predictSatellite
pipeline. -/
theorem c1_confidence_class_invariant :
    (∀ (d : OrbitalInput) (dv : DerivedFeatures) (r : Engine.EngResult),
        Engine.predict d dv = .ok r →
        0.50 ≤ r.confidence ∧ r.confidence ≤ 1 ∧ r.prediction ∈ classes) ∧
    (∀ (d : OrbitalInput) (r : App.AppResult),
        App.predictSatellite d = .ok r →
        0.50 ≤ r.confidence ∧ r.confidence ≤ 1 ∧ r.prediction ∈ classes) := by
  constructor
  · intro d dv r h
    have hr : r = Engine.predictCore (extractSample d) dv := by
      simp only [Engine.predict] at h
      split at h
      · cases h
      · injection h with h2
        exact h2.symm
    subst hr
    refine ⟨(confidenceOf_bounds dv).1, (confidenceOf_bounds dv).2, ?_⟩
    show Engine.predictionOf dv ∈ classes
    cases Engine.predictionOf dv <;> simp [classes]
  · intro d r h
    simp only [App.predictSatellite] at h
    split at h
    · injection h with h2
      subst h2
      simp only [App.predictCore]
      split
      · exact ⟨by norm_num, by norm_num, by simp [classes]⟩
      · split
        · exact ⟨by norm_num, by norm_num, by simp [classes]⟩
        · split
          · exact ⟨by norm_num, by norm_num, by simp [classes]⟩
          · exact ⟨by norm_num, by norm_num, by simp [classes]⟩
    · cases h

/-- Witness for C1 at the documentation's ISS sample. -/
theorem c1_witness :
    (0.50 ≤ (Engine.predictCore (extractSample dEx) dvEx).confidence ∧
      (Engine.predictCore (extractSample dEx) dvEx).confidence ≤ 1 ∧
      (Engine.predictCore (extractSample dEx) dvEx).prediction ∈ classes) ∧
    (0.50 ≤ (App.predictCore (extractSample dEx)).confidence ∧
      (App.predictCore (extractSample dEx)).confidence ≤ 1 ∧
      (App.predictCore (extractSample dEx)).prediction ∈ classes) :=
  ⟨c1_confidence_class_invariant.1 dEx dvEx _ (by with_unfolding_all rfl),
   c1_confidence_class_invariant.2 dEx _ (by with_unfolding_all rfl)⟩

/-- C2: when a class's rule set matches, the returned prediction is that
class and the returned confidence is the weighted blend 0.6 *
altitudeScore + 0.4 * velocityScore, replaced by 0.90 whenever the blend
is lower (i.e. the maximum of the blend and 0.90). -/
theorem c2_match_confidence_blend :
    ∀ (s : OrbitalSample) (dv : DerivedFeatures) (name : ClassName),
      Engine.matchesRules dv name = true →
      (Engine.predictCore s dv).prediction = name ∧
      (Engine.predictCore s dv).confidence =
        max (Engine.altitudeScore dv name * 0.6 + Engine.velocityScore dv name * 0.4) 0.90 := by
  intro s dv name h
  have hconf : Engine.calculateConfidence dv name =
      max (Engine.altitudeScore dv name * 0.6 + Engine.velocityScore dv name * 0.4) 0.90 := by
    simp only [Engine.calculateConfidence]
    rw [if_pos h]
  cases name with
  | ISS =>
    constructor
    · show Engine.predictionOf dv = .ISS
      simp only [Engine.predictionOf]
      rw [if_pos h]
    · show Engine.confidenceOf dv = _
      simp only [Engine.confidenceOf]
      rw [if_pos h, hconf]
  | Sentinel1A =>
    have hnot := matchesRules_Sentinel_not_ISS dv h
    constructor
    · show Engine.predictionOf dv = .Sentinel1A
      simp only [Engine.predictionOf]
      rw [if_neg hnot, if_pos h]
    · show Engine.confidenceOf dv = _
      simp only [Engine.confidenceOf]
      rw [if_neg hnot, if_pos h, hconf]

/-- Witness for C2 at derived features inside the ISS ranges. -/
theorem c2_witness :
    Engine.matchesRules dvISS ClassName.ISS = true ∧
    (Engine.predictCore (extractSample dEx) dvISS).prediction = ClassName.ISS ∧
    (Engine.predictCore (extractSample dEx) dvISS).confidence =
      max (Engine.altitudeScore dvISS .ISS * 0.6 + Engine.velocityScore dvISS .ISS * 0.4) 0.90 := by
  have hm : Engine.matchesRules dvISS ClassName.ISS = true := by with_unfolding_all decide
  obtain ⟨h1, h2⟩ := c2_match_confidence_blend (extractSample dEx) dvISS ClassName.ISS hm
  exact ⟨hm, h1, h2⟩

/-- C3: a valid sample matching neither class falls back to the single
altitude threshold: altitude below 500 km predicts ISS with confidence
exactly 0.70, altitude at or above 500 km predicts Sentinel1A with
confidence exactly 0.70. -/
theorem c3_fallback_threshold :
    ∀ (d : OrbitalInput) (dv : DerivedFeatures),
      Engine.validateInput d = .ok () →
      Engine.matchesRules dv .ISS = false →
      Engine.matchesRules dv .Sentinel1A = false →
      (dv.altitude < 500 →
        (Engine.predictCore (extractSample d) dv).prediction = .ISS ∧
        (Engine.predictCore (extractSample d) dv).confidence = 0.70) ∧
      (500 ≤ dv.altitude →
        (Engine.predictCore (extractSample d) dv).prediction = .Sentinel1A ∧
        (Engine.predictCore (extractSample d) dv).confidence = 0.70) := by
  intro d dv _ h1 h2
  have hn1 : ¬ Engine.matchesRules dv .ISS = true := by simp [h1]
  have hn2 : ¬ Engine.matchesRules dv .Sentinel1A = true := by simp [h2]
  constructor
  · intro halt
    constructor
    · show Engine.predictionOf dv = .ISS
      simp only [Engine.predictionOf]
      rw [if_neg hn1, if_neg hn2, if_pos halt]
    · show Engine.confidenceOf dv = 0.70
      simp only [Engine.confidenceOf]
      rw [if_neg hn1, if_neg hn2]
  · intro halt
    have hlt : ¬ dv.altitude < 500 := not_lt.mpr halt
    constructor
    · show Engine.predictionOf dv = .Sentinel1A
      simp only [Engine.predictionOf]
      rw [if_neg hn1, if_neg hn2, if_neg hlt]
    · show Engine.confidenceOf dv = 0.70
      simp only [Engine.confidenceOf]
      rw [if_neg hn1, if_neg hn2]

/-- Witness for C3: a valid input with derived altitude 629 km matches
neither class and is classified Sentinel1A with confidence 0.70. -/
theorem c3_witness :
    Engine.validateInput dEx = .ok () ∧
    Engine.matchesRules dvFall .ISS = false ∧
    Engine.matchesRules dvFall .Sentinel1A = false ∧
    (Engine.predictCore (extractSample dEx) dvFall).prediction = .Sentinel1A ∧
    (Engine.predictCore (extractSample dEx) dvFall).confidence = 0.70 := by
  have hv : Engine.validateInput dEx = .ok () := by with_unfolding_all rfl
  have h1 : Engine.matchesRules dvFall .ISS = false := by with_unfolding_all decide
  have h2 : Engine.matchesRules dvFall .Sentinel1A = false := by with_unfolding_all decide
  have h3 : (500 : ℚ) ≤ dvFall.altitude := by with_unfolding_all decide
  obtain ⟨hp, hc⟩ := (c3_fallback_threshold dEx dvFall hv h1 h2).2 h3
  exact ⟨hv, h1, h2, hp, hc⟩

/-- C8: all six rule-range bounds are inclusive: a class matches exactly
when altitude, total velocity and radial distance each lie within that
class's closed interval. -/
theorem c8_inclusive_bounds :
    ∀ (dv : DerivedFeatures) (name : ClassName),
      Engine.matchesRules dv name = true ↔
        ((classificationRules name).altitude_range.1 ≤ dv.altitude ∧
         dv.altitude ≤ (classificationRules name).altitude_range.2 ∧
         (classificationRules name).velocity_range.1 ≤ dv.totalVelocity ∧
         dv.totalVelocity ≤ (classificationRules name).velocity_range.2 ∧
         (classificationRules name).radial_distance.1 ≤ dv.radialDistance ∧
         dv.radialDistance ≤ (classificationRules name).radial_distance.2) :=
  matchesRules_spec

/-- Witness for C8: derived features with altitude exactly 400 km and
radial distance exactly 6771 km (the low ISS edges) satisfy the ISS
range test. -/
theorem c8_witness :
    Engine.matchesRules dvBoundary .ISS = true ∧ dvBoundary.altitude = 400 :=
  ⟨(c8_inclusive_bounds dvBoundary .ISS).mpr (by with_unfolding_all decide),
   by with_unfolding_all decide⟩

theorem mem_foldr_of_mem {α β : Type} (g : α → List β) (l : List α) (a : α) (b : β)
    (ha : a ∈ l) (hb : b ∈ g a) : b ∈ l.foldr (fun x acc => g x ++ acc) [] := by
  induction l with
  | nil => cases ha
  | cons x xs ih =>
    rcases List.mem_cons.mp ha with h | h
    · subst h
      exact List.mem_append_left _ hb
    · exact List.mem_append_right _ (ih h)

/-- C4 as it holds on the code: the app.js validator returns the full
list of violations (every missing field, every non-numeric field, the
out-of-range latitude and longitude), while the engine's validateInput
surfaces exactly the head of that full violation list - the first
violation in check order - and nothing else. -/
theorem c4_validation_reporting :
    ∀ d : OrbitalInput,
      (Engine.validateInput d =
        match Engine.validateInputSpec d with
        | [] => Except.ok ()
        | e :: _ => Except.error e) ∧
      (∀ f, f ∈ requiredFields →
        (d f = .missing → App.AppError.missingField f ∈ App.validateInput d) ∧
        (d f = .missing ∨ d f = .nan → App.AppError.invalidValue f ∈ App.validateInput d)) ∧
      (∀ q : ℚ, d InputField.latitude = .num q → q < -90 ∨ 90 < q →
        App.AppError.latitudeOutOfRange ∈ App.validateInput d) ∧
      (∀ q : ℚ, d InputField.longitude = .num q → q < -180 ∨ 180 < q →
        App.AppError.longitudeOutOfRange ∈ App.validateInput d) := by
  intro d
  refine ⟨?_, ?_, ?_, ?_⟩
  · simp only [Engine.validateInput, Engine.validateInputSpec]
    rw [← List.filterMap_head?]
    cases hfm : List.filterMap (fun f => Engine.fieldError (d f) f) requiredFields with
    | nil =>
      by_cases hlat : (d InputField.latitude).numOr0 < -90 ∨ 90 < (d InputField.latitude).numOr0
      · simp [hlat]
      · by_cases hlon : (d InputField.longitude).numOr0 < -180 ∨ 180 < (d InputField.longitude).numOr0
        · simp [hlat, hlon]
        · simp [hlat, hlon]
    | cons e es => simp
  · intro f hf
    constructor
    · intro hm
      have hmem : App.AppError.missingField f ∈ App.fieldErrors (d f) f := by
        rw [hm]
        simp [App.fieldErrors]
      exact List.mem_append_left _ (List.mem_append_left _ (List.mem_append_left _
        (List.mem_append_left _ (List.mem_append_left _ (List.mem_append_left _
          (mem_foldr_of_mem _ _ f _ hf hmem))))))
    · intro hm
      have hmem : App.AppError.invalidValue f ∈ App.fieldErrors (d f) f := by
        rcases hm with hm | hm <;> rw [hm] <;> simp [App.fieldErrors]
      exact List.mem_append_left _ (List.mem_append_left _ (List.mem_append_left _
        (List.mem_append_left _ (List.mem_append_left _ (List.mem_append_left _
          (mem_foldr_of_mem _ _ f _ hf hmem))))))
  · intro q hq hr
    have hmem : App.AppError.latitudeOutOfRange ∈
        App.rangeError (d InputField.latitude) (-90) 90 .latitudeOutOfRange := by
      rw [hq, App.rangeError, if_pos hr]
      exact List.mem_singleton.mpr rfl
    exact List.mem_append_left _ (List.mem_append_left _ (List.mem_append_left _
      (List.mem_append_left _ (List.mem_append_left _
        (List.mem_append_right _ hmem)))))
  · intro q hq hr
    have hmem : App.AppError.longitudeOutOfRange ∈
        App.rangeError (d InputField.longitude) (-180) 180 .longitudeOutOfRange := by
      rw [hq, App.rangeError, if_pos hr]
      exact List.mem_singleton.mpr rfl
    exact List.mem_append_left _ (List.mem_append_left _ (List.mem_append_left _
      (List.mem_append_left _ (List.mem_append_right _ hmem))))

/-- Counterexample to C4 as stated: at dBoth both the latitude and the
longitude are out of range (the full violation list has two entries),
yet the engine classifier's validateInput surfaces only the first
violation, the latitude error. -/
theorem c4_counterexample :
    Engine.validateInput dBoth = .error Engine.EngError.latitudeRange ∧
    Engine.validateInputSpec dBoth =
      [Engine.EngError.latitudeRange, Engine.EngError.longitudeRange] := by
  constructor
  · with_unfolding_all rfl
  · with_unfolding_all decide

/-- Witness for C4: at dBoth the engine error equals the head of the
full violation list, and the app validator reports the out-of-range
latitude. -/
theorem c4_witness :
    (Engine.validateInput dBoth =
      match Engine.validateInputSpec dBoth with
      | [] => Except.ok ()
      | e :: _ => Except.error e) ∧
    App.AppError.latitudeOutOfRange ∈ App.validateInput dBoth :=
  ⟨(c4_validation_reporting dBoth).1,
   (c4_validation_reporting dBoth).2.2.1 100 (by with_unfolding_all rfl) (by norm_num)⟩

/-- C5 as it holds on the code: the app.js pipeline rejects any
zero-radial-distance position with the ECI-inside-Earth validation
error, surfacing the violation list instead of a result; the engine
classifier itself (see the counterexample) surfaces no such error. -/
theorem c5_degenerate_guard :
    ∀ (d : OrbitalInput) (x y z : ℚ),
      d InputField.x_eci = .num x → d InputField.y_eci = .num y →
      d InputField.z_eci = .num z → x ^ 2 + y ^ 2 + z ^ 2 = 0 →
      App.AppError.eciInsideEarth ∈ App.validateInput d ∧
      App.predictSatellite d = .error (App.validateInput d) := by
  intro d x y z hx hy hz hzero
  have hmem : App.AppError.eciInsideEarth ∈
      App.eciErrors (d InputField.x_eci) (d InputField.y_eci) (d InputField.z_eci) := by
    rw [App.eciErrors, hx, hy, hz]
    have hguard : ¬ (JVal.num x = .nan ∨ JVal.num y = .nan ∨ JVal.num z = .nan) := by
      simp
    rw [if_neg hguard]
    have hsum : (JVal.num x).numOr0 ^ 2 + (JVal.num y).numOr0 ^ 2 + (JVal.num z).numOr0 ^ 2
        < 6371 ^ 2 := by
      simp only [JVal.numOr0]
      rw [hzero]
      norm_num
    rw [if_pos hsum]
    exact List.mem_append_left _ (List.mem_singleton.mpr rfl)
  have hin : App.AppError.eciInsideEarth ∈ App.validateInput d :=
    List.mem_append_right _ hmem
  refine ⟨hin, ?_⟩
  cases hv : App.validateInput d with
  | nil => rw [hv] at hin; cases hin
  | cons e es =>
    rw [App.predictSatellite, hv]

/-- Counterexample to C5 as stated: on the zero-position input the
engine classifier surfaces no error at all - predict returns a normal
result - and that result's orbitalVelocity feature is non-finite. -/
theorem c5_counterexample :
    (Engine.predict dZero dvZero).toOption =
      some (Engine.predictCore (extractSample dZero) dvZero) ∧
    (Engine.predictCore (extractSample dZero) dvZero).derived.orbitalVelocitySq = none ∧
    CalculatesDerived (extractSample dZero) dvZero := by
  refine ⟨by with_unfolding_all rfl, by with_unfolding_all rfl, by with_unfolding_all decide⟩

/-- Witness for C5 at the concrete zero-position input. -/
theorem c5_witness :
    App.AppError.eciInsideEarth ∈ App.validateInput dZero ∧
    App.predictSatellite dZero = .error (App.validateInput dZero) :=
  c5_degenerate_guard dZero 0 0 0 (by with_unfolding_all rfl) (by with_unfolding_all rfl)
    (by with_unfolding_all rfl) (by norm_num)

/-- C6 as it holds on the code: the batch fold is compositional (a bad
line never stops the processing of the remaining lines); any line with
fewer than 8 fields or with an unparseable cell among the first 8
produces exactly one failure carrying the 1-based index of that line in
the cleaned line list; and the concrete three-row batch with one
non-numeric cell in row 2 yields successes for lines 1 and 3 and the
single failure for line 2 at cell position 3. -/
theorem c6_malformed_row_isolation :
    (∀ xs ys, Batch.processLines (xs ++ ys) =
      ((Batch.processLines xs).1 ++ (Batch.processLines ys).1,
       (Batch.processLines xs).2 ++ (Batch.processLines ys).2)) ∧
    (∀ (i : Nat) (line : List Char),
      (Batch.lineValues line).length < 8 ∨ Batch.invalidPositions line ≠ [] →
      (Batch.processLines [(i, line)]).1 = [] ∧
      ∃ r, (Batch.processLines [(i, line)]).2 = [⟨i + 1, r⟩]) ∧
    (Batch.processBatch csvC6).toOption.map
      (fun o => (o.successes.map Batch.SuccessRow.lineNumber, o.failures)) =
      some ([1, 3], [⟨2, Batch.FailReason.invalidNumeric [3]⟩]) := by
  refine ⟨?_, ?_, ?_⟩
  · intro xs ys
    induction xs with
    | nil => simp [Batch.processLines]
    | cons p rest ih =>
      obtain ⟨i, line⟩ := p
      simp only [List.cons_append, Batch.processLines, ih]
      cases Batch.processLine i line <;> simp [ih]
  · intro i line h
    simp only [Batch.processLines, Batch.processLine]
    rcases h with h | h
    · rw [if_pos h]
      exact ⟨rfl, ⟨.notEnoughColumns (Batch.lineValues line).length, rfl⟩⟩
    · by_cases h8 : (Batch.lineValues line).length < 8
      · rw [if_pos h8]
        exact ⟨rfl, ⟨.notEnoughColumns (Batch.lineValues line).length, rfl⟩⟩
      · rw [if_neg h8, if_pos h]
        exact ⟨rfl, ⟨.invalidNumeric (Batch.invalidPositions line), rfl⟩⟩
  · with_unfolding_all decide

/-- Counterexample to C6 as stated: in csvBlank the malformed row sits
on source line 3 (source line 2 is blank), but blank lines are dropped
before numbering, so the recorded failure says line 2, not the source
line number; and in csvPrefix the cell 12abc is not a number, yet
parseFloat accepts its numeric prefix 12 and the row succeeds instead of
being recorded as a failure. -/
theorem c6_counterexample :
    (Batch.processBatch csvBlank).toOption.map
      (fun o => (o.successes.map Batch.SuccessRow.lineNumber,
                 o.failures.map Batch.FailRow.lineNumber)) = some ([1], [2]) ∧
    (Batch.sourceLines csvBlank).getD 2 [] = badRow.toList ∧
    (Batch.sourceLines csvBlank).getD 1 [] = [] ∧
    (Batch.processBatch csvPrefix).toOption.map
      (fun o => (o.successes.map Batch.SuccessRow.lineNumber, o.failures)) =
      some ([1], []) := by
  refine ⟨?_, ?_, ?_, ?_⟩
  · with_unfolding_all decide
  · with_unfolding_all decide
  · with_unfolding_all decide
  · with_unfolding_all decide

/-- Witness for C6: the fold splits around the malformed row and that
row alone yields no success and one failure numbered 2. -/
theorem c6_witness :
    (Batch.processLines ([(0, goodRow.toList)] ++ [(1, badRow.toList)]) =
      ((Batch.processLines [(0, goodRow.toList)]).1 ++
        (Batch.processLines [(1, badRow.toList)]).1,
       (Batch.processLines [(0, goodRow.toList)]).2 ++
        (Batch.processLines [(1, badRow.toList)]).2)) ∧
    (Batch.processLines [(1, badRow.toList)]).1 = [] ∧
    (∃ r, (Batch.processLines [(1, badRow.toList)]).2 = [⟨2, r⟩]) := by
  refine ⟨c6_malformed_row_isolation.1 _ _, ?_, ?_⟩
  · exact (c6_malformed_row_isolation.2.1 1 badRow.toList
      (Or.inr (by with_unfolding_all decide))).1
  · exact (c6_malformed_row_isolation.2.1 1 badRow.toList
      (Or.inr (by with_unfolding_all decide))).2

/-- C7: a CSV with no data rows after header detection is a fatal batch
error, and a successful batch outcome never carries an empty success
sequence. -/
theorem c7_empty_batch_fatal :
    (∀ csv : String, Batch.dataLines csv = [] →
      ∃ e, Batch.processBatch csv = .error e) ∧
    (∀ (csv : String) (o : Batch.BatchOutcome),
      Batch.processBatch csv = .ok o → o.successes ≠ []) := by
  constructor
  · intro csv h
    by_cases hl : Batch.cleanLines csv = []
    · exact ⟨.emptyFile, by simp only [Batch.processBatch]; rw [if_pos hl]⟩
    · refine ⟨.noValidRows, ?_⟩
      simp only [Batch.processBatch]
      rw [if_neg hl, h]
      rfl
  · intro csv o h
    simp only [Batch.processBatch] at h
    split at h
    · cases h
    · split at h
      · cases h
      · next hne =>
        injection h with h2
        intro hc
        rw [← h2] at hc
        exact hne hc

/-- Witness for C7: the empty file and the header-only file are both
rejected as fatal batch errors. -/
theorem c7_witness :
    (∃ e, Batch.processBatch emptyCsv = .error e) ∧
    (∃ e, Batch.processBatch headerOnlyCsv = .error e) :=
  ⟨c7_empty_batch_fatal.1 emptyCsv (by with_unfolding_all decide),
   c7_empty_batch_fatal.1 headerOnlyCsv (by with_unfolding_all decide)⟩

theorem normalizeFrom_getElem (fs : List ℚ) :
    ∀ idx i : Nat,
      (Engine.normalizeFrom idx fs)[i]? =
        fs[i]?.map (fun v =>
          match SCALER_MEAN[idx + i]?, SCALER_STD[idx + i]? with
          | some m, some s => some ((v - m) / s)
          | _, _ => none) := by
  induction fs with
  | nil =>
    intro idx i
    simp [Engine.normalizeFrom]
  | cons v rest ih =>
    intro idx i
    cases i with
    | zero => simp [Engine.normalizeFrom]
    | succ n =>
      simp only [Engine.normalizeFrom, List.getElem?_cons_succ]
      rw [ih (idx + 1) n]
      have he : idx + 1 + n = idx + (n + 1) := by omega
      rw [he]

theorem normalizeFrom_length (fs : List ℚ) :
    ∀ idx : Nat, (Engine.normalizeFrom idx fs).length = fs.length := by
  induction fs with
  | nil => intro idx; rfl
  | cons v rest ih =>
    intro idx
    simp [Engine.normalizeFrom, ih]

/-- C9 as it holds on the code: the normalizer never fails.  It maps the
input positionally: within the scaler arrays (positions 0..9) it
produces the z-score; the output always has the input's length; at
positions 10 and beyond the mean/std lookups are undefined and the entry
is the non-finite NaN value (none) - no dimension-mismatch error is ever
raised, whatever the input length. -/
theorem c9_normalizer_behavior :
    (∀ (fs : List ℚ) (i : Nat), i < 10 →
      (Engine.normalizeFeatures fs)[i]? =
        fs[i]?.map (fun v => some ((v - SCALER_MEAN.getD i 0) / SCALER_STD.getD i 0))) ∧
    (∀ fs : List ℚ, (Engine.normalizeFeatures fs).length = fs.length) ∧
    (∀ (fs : List ℚ) (i : Nat), 10 ≤ i →
      (Engine.normalizeFeatures fs)[i]? = fs[i]?.map (fun _ => none)) := by
  refine ⟨?_, ?_, ?_⟩
  · intro fs i hi
    rw [Engine.normalizeFeatures, normalizeFrom_getElem fs 0 i]
    have hm : SCALER_MEAN[0 + i]? = some (SCALER_MEAN.getD i 0) := by
      rw [Nat.zero_add]
      interval_cases i <;> rfl
    have hs : SCALER_STD[0 + i]? = some (SCALER_STD.getD i 0) := by
      rw [Nat.zero_add]
      interval_cases i <;> rfl
    rw [hm, hs]
  · intro fs
    exact normalizeFrom_length fs 0
  · intro fs i hi
    rw [Engine.normalizeFeatures, normalizeFrom_getElem fs 0 i]
    have hm : SCALER_MEAN[0 + i]? = none := by
      rw [Nat.zero_add]
      exact List.getElem?_eq_none (by simpa [SCALER_MEAN] using hi)
    rw [hm]

/-- Counterexample to C9 as stated: an 11-element vector does not raise
a dimension-mismatch error (as the spec contract, modelled by
normalizeFeaturesSpec, would) - the code silently returns an 11-element
vector whose last entry is the non-finite NaN value. -/
theorem c9_counterexample :
    Engine.normalizeFeaturesSpec (List.replicate 11 1) = .error Engine.DimError.mismatch ∧
    Engine.normalizeFeatures (List.replicate 11 1) =
      [some (1 / 90), some (1 / 180), some (1 / 1000), some (1 / 1000), some (1 / 1000),
       some (2 / 3), some (2 / 3), some (2 / 3), some (-130 / 3), some (-6899 / 200), none] := by
  constructor
  · with_unfolding_all rfl
  · norm_num [Engine.normalizeFeatures, Engine.normalizeFrom, SCALER_MEAN, SCALER_STD,
      List.replicate]

/-- Witness for C9 at the 11-element all-ones vector. -/
theorem c9_witness :
    (Engine.normalizeFeatures (List.replicate 11 1))[9]? =
      (List.replicate 11 (1 : ℚ))[9]?.map
        (fun v => some ((v - SCALER_MEAN.getD 9 0) / SCALER_STD.getD 9 0)) ∧
    (Engine.normalizeFeatures (List.replicate 11 1)).length = 11 ∧
    (Engine.normalizeFeatures (List.replicate 11 1))[10]? =
      (List.replicate 11 (1 : ℚ))[10]?.map (fun _ => none) := by
  refine ⟨c9_normalizer_behavior.1 _ 9 (by norm_num), ?_,
    c9_normalizer_behavior.2.2 _ 10 (by norm_num)⟩
  rw [c9_normalizer_behavior.2.1]
  rfl

theorem fieldErrors_eq_nil {v : JVal} {f : InputField} (h : App.fieldErrors v f = []) :
    ∃ q, v = .num q := by
  cases v with
  | missing => simp [App.fieldErrors] at h
  | nan => simp [App.fieldErrors] at h
  | num q => exact ⟨q, rfl⟩

theorem foldr_append_eq_nil {α β : Type} (g : α → List β) (l : List α)
    (h : l.foldr (fun x acc => g x ++ acc) [] = []) : ∀ a ∈ l, g a = [] := by
  induction l with
  | nil => intro a ha; cases ha
  | cons x xs ih =>
    intro a ha
    simp only [List.foldr_cons] at h
    rcases List.append_eq_nil.mp h with ⟨h1, h2⟩
    rcases List.mem_cons.mp ha with h3 | h3
    · subst h3
      exact h1
    · exact ih h2 a h3

/-- C10 (implicit): every input the app.js validator accepts has an ECI
position whose squared magnitude is at least 6371 squared, so the
derived radial distance is at least 6371 km, the reported altitude is
nonnegative, and a zero radial distance can never reach feature
derivation. -/
theorem c10_validated_above_earth :
    ∀ d : OrbitalInput, App.validateInput d = [] →
      6371 ^ 2 ≤ (extractSample d).x_eci ^ 2 + (extractSample d).y_eci ^ 2 +
        (extractSample d).z_eci ^ 2 ∧
      ∀ dv : DerivedFeatures, CalculatesDerived (extractSample d) dv →
        6371 ≤ dv.radialDistance ∧ 0 ≤ dv.altitude ∧ dv.radialDistance ≠ 0 := by
  intro d h
  simp only [App.validateInput] at h
  rcases List.append_eq_nil.mp h with ⟨h6, hG⟩
  rcases List.append_eq_nil.mp h6 with ⟨h5, _⟩
  rcases List.append_eq_nil.mp h5 with ⟨h4, _⟩
  rcases List.append_eq_nil.mp h4 with ⟨h3, _⟩
  rcases List.append_eq_nil.mp h3 with ⟨h2, _⟩
  rcases List.append_eq_nil.mp h2 with ⟨h1, _⟩
  have hfields := foldr_append_eq_nil _ _ h1
  obtain ⟨qx, hx⟩ := fieldErrors_eq_nil (hfields InputField.x_eci (by simp [requiredFields]))
  obtain ⟨qy, hy⟩ := fieldErrors_eq_nil (hfields InputField.y_eci (by simp [requiredFields]))
  obtain ⟨qz, hz⟩ := fieldErrors_eq_nil (hfields InputField.z_eci (by simp [requiredFields]))
  rw [App.eciErrors, hx, hy, hz] at hG
  have hguard : ¬ (JVal.num qx = .nan ∨ JVal.num qy = .nan ∨ JVal.num qz = .nan) := by simp
  rw [if_neg hguard] at hG
  rcases List.append_eq_nil.mp hG with ⟨hGin, _⟩
  have hmag : ¬ ((JVal.num qx).numOr0 ^ 2 + (JVal.num qy).numOr0 ^ 2 +
      (JVal.num qz).numOr0 ^ 2 < 6371 ^ 2) := by
    intro hc
    rw [if_pos hc] at hGin
    cases hGin
  simp only [JVal.numOr0] at hmag
  have hmag2 : 6371 ^ 2 ≤ qx ^ 2 + qy ^ 2 + qz ^ 2 := not_lt.mp hmag
  have hsx : (extractSample d).x_eci = qx := by
    simp [extractSample, hx, JVal.numOr0]
  have hsy : (extractSample d).y_eci = qy := by
    simp [extractSample, hy, JVal.numOr0]
  have hsz : (extractSample d).z_eci = qz := by
    simp [extractSample, hz, JVal.numOr0]
  rw [hsx, hsy, hsz]
  refine ⟨hmag2, ?_⟩
  intro dv hdv
  obtain ⟨_, _, hrd0, hrd2⟩ := hdv
  rw [hsx, hsy, hsz] at hrd2
  have hge : 6371 ≤ dv.radialDistance := by
    nlinarith [hrd0, hrd2, hmag2]
  refine ⟨hge, ?_, ?_⟩
  · simp only [DerivedFeatures.altitude, EARTH_RADIUS_KM]
    have : (6371.0 : ℚ) = 6371 := by norm_num
    linarith
  · intro hzero
    rw [hzero] at hge
    norm_num at hge

/-- Witness for C10 at the concrete valid input dSq with radial
distance exactly 7000. -/
theorem c10_witness :
    6371 ^ 2 ≤ (extractSample dSq).x_eci ^ 2 + (extractSample dSq).y_eci ^ 2 +
      (extractSample dSq).z_eci ^ 2 ∧
    6371 ≤ dvSq.radialDistance ∧ 0 ≤ dvSq.altitude ∧ dvSq.radialDistance ≠ 0 := by
  have h := c10_validated_above_earth dSq (by with_unfolding_all decide)
  exact ⟨h.1, h.2 dvSq (by
    norm_num [CalculatesDerived, extractSample, dSq, Batch.mkData, JVal.numOr0, dvSq])⟩

/-- The squared-comparison form of the app.js decision equals the
literal square-root form, for the true derived features: this justifies
the square rewriting inside App.predictCore. -/
theorem app_predictCore_eq_predictSpec :
    ∀ (s : OrbitalSample) (dv : DerivedFeatures), CalculatesDerived s dv →
      App.predictCore s = App.predictSpec s dv := by
  intro s dv h
  obtain ⟨htv0, htv2, hrd0, hrd2⟩ := h
  have key : ∀ a b : ℚ, 0 ≤ a → 0 ≤ b → (a ^ 2 < b ^ 2 ↔ a < b) := by
    intro a b ha hb
    constructor
    · intro hlt
      by_contra hge
      push_neg at hge
      nlinarith
    · intro hlt
      nlinarith
  have hA : (s.x_eci ^ 2 + s.y_eci ^ 2 + s.z_eci ^ 2 < 6821 ^ 2) ↔ dv.altitude < 450 := by
    rw [← hrd2, key dv.radialDistance 6821 hrd0 (by norm_num)]
    simp only [DerivedFeatures.altitude, EARTH_RADIUS_KM]
    constructor <;> intro h1 <;> [linarith; linarith]
  have hV1 : ((7.6 : ℚ) ^ 2 < s.vel_x ^ 2 + s.vel_y ^ 2 + s.vel_z ^ 2) ↔
      7.6 < dv.totalVelocity := by
    rw [← htv2, key 7.6 dv.totalVelocity (by norm_num) htv0]
  have hB : ((7021 : ℚ) ^ 2 < s.x_eci ^ 2 + s.y_eci ^ 2 + s.z_eci ^ 2) ↔ 650 < dv.altitude := by
    rw [← hrd2, key 7021 dv.radialDistance (by norm_num) hrd0]
    simp only [DerivedFeatures.altitude, EARTH_RADIUS_KM]
    constructor <;> intro h1 <;> [linarith; linarith]
  have hV2 : (s.vel_x ^ 2 + s.vel_y ^ 2 + s.vel_z ^ 2 < (7.6 : ℚ) ^ 2) ↔
      dv.totalVelocity < 7.6 := by
    rw [← htv2, key dv.totalVelocity 7.6 htv0 (by norm_num)]
  simp only [App.predictCore, App.predictSpec]
  refine if_congr (and_congr hA hV1) rfl ?_
  refine if_congr (and_congr hB hV2) rfl ?_
  exact if_congr (and_congr Iff.rfl hA) rfl rfl

end SatML
